import Mathlib

/-!
Shallow embedding of the notebook
`sagemaker-python-sdk/sparkml_serving_emr_mleap_abalone/sparkml_serving_emr_mleap_abalone.ipynb`.

The notebook is a straight-line script: it declares a CSV schema, splits the
dataset, builds and fits a SparkML pipeline, evaluates it, serializes the
fitted model with MLeap, repackages the zip bundle into a tar-gzip archive,
uploads it, deploys a SageMaker endpoint, issues three prediction requests
and deletes the endpoint.  Each cell's data (schemas, stage parameters,
payloads, file paths, the order of effects) is translated below; external
library calls whose arguments the notebook fixes are modelled by the
semantics of those arguments (archives as path/content lists, the script as
an event trace, sequencing as `Except` bind).
-/

namespace SparkmlAbalone

/-! ## Spark CSV schema (notebook cell 14) -/

/-- The two Spark SQL data types that occur in the notebook's `StructType`. -/
inductive SparkDType where
  | stringType
  | doubleType
  deriving DecidableEq, Repr

/-- One `StructField(name, dtype, nullable)` of the Spark schema. -/
structure StructFieldDef where
  name : String
  dtype : SparkDType
  nullable : Bool
  deriving DecidableEq, Repr

/-- `schema = StructType([...])` from the notebook: the nine columns of the
abalone CSV, `sex` a string and the rest doubles, all nullable. -/
def sparkSchema : List StructFieldDef :=
  [ ⟨"sex", .stringType, true⟩,
    ⟨"length", .doubleType, true⟩,
    ⟨"diameter", .doubleType, true⟩,
    ⟨"height", .doubleType, true⟩,
    ⟨"whole_weight", .doubleType, true⟩,
    ⟨"shucked_weight", .doubleType, true⟩,
    ⟨"viscera_weight", .doubleType, true⟩,
    ⟨"shell_weight", .doubleType, true⟩,
    ⟨"rings", .doubleType, true⟩ ]

/-- The serving-container name of a Spark SQL type (`string` / `double`),
as it appears in the JSON schema of the serving container. -/
def dtypeName : SparkDType → String
  | .stringType => "string"
  | .doubleType => "double"

/-! ## Pipeline stages (notebook cells 18 and 20) -/

/-- `StringIndexer(inputCol, outputCol)`. -/
structure StringIndexerDef where
  inputCol : String
  outputCol : String
  deriving DecidableEq, Repr

/-- `OneHotEncoderEstimator(inputCols, outputCols)`. -/
structure OneHotEncoderDef where
  inputCols : List String
  outputCols : List String
  deriving DecidableEq, Repr

/-- `VectorAssembler(inputCols, outputCol)`. -/
structure VectorAssemblerDef where
  inputCols : List String
  outputCol : String
  deriving DecidableEq, Repr

/-- `RandomForestRegressor(labelCol, featuresCol, maxDepth, numTrees)`. -/
structure RandomForestDef where
  labelCol : String
  featuresCol : String
  maxDepth : Nat
  numTrees : Nat
  deriving DecidableEq, Repr

/-- A stage of a SparkML `Pipeline`, as used by the notebook. -/
inductive Stage where
  | indexer (d : StringIndexerDef)
  | encoder (d : OneHotEncoderDef)
  | assembler (d : VectorAssemblerDef)
  | regressor (d : RandomForestDef)
  deriving DecidableEq, Repr

/-- `sex_indexer = StringIndexer(inputCol="sex", outputCol="indexed_sex")`. -/
def sex_indexer : StringIndexerDef := ⟨"sex", "indexed_sex"⟩

/-- `sex_encoder = OneHotEncoderEstimator(inputCols=["indexed_sex"], outputCols=["sex_vec"])`. -/
def sex_encoder : OneHotEncoderDef := ⟨["indexed_sex"], ["sex_vec"]⟩

/-- `assembler = VectorAssembler(inputCols=[...], outputCol="features")`. -/
def assembler : VectorAssemblerDef :=
  ⟨[ "sex_vec", "length", "diameter", "height", "whole_weight",
     "shucked_weight", "viscera_weight", "shell_weight" ], "features"⟩

/-- `rf = RandomForestRegressor(labelCol="rings", featuresCol="features", maxDepth=6, numTrees=18)`. -/
def rf : RandomForestDef := ⟨"rings", "features", 6, 18⟩

/-- `pipeline = Pipeline(stages=[sex_indexer, sex_encoder, assembler, rf])`. -/
def pipeline : List Stage :=
  [.indexer sex_indexer, .encoder sex_encoder, .assembler assembler, .regressor rf]

/-! ## Symbolic dataflow (cells 16, 20, 22, 24)

The notebook's dataframes and fitted model are opaque objects of the
external engine; what the notebook determines is which call produced each
value from which arguments.  We record that dataflow as first-order
expressions. -/

/-- A dataframe-valued expression of the notebook. -/
inductive DFExpr where
  | totalDF
  | trainDF
  | validationDF
  | transformed (stages : List Stage) (fitOn : DFExpr) (input : DFExpr)
  deriving DecidableEq, Repr

/-- A fitted-pipeline-model expression: `fit stages df` is `Pipeline(stages=stages).fit(df)`. -/
inductive ModelExpr where
  | fit (stages : List Stage) (df : DFExpr)
  deriving DecidableEq, Repr

/-- `model = pipeline.fit(train_df)` (cell 20): the single fit call, on the
whole stage sequence, with `train_df` as its only data argument. -/
def model : ModelExpr := .fit pipeline .trainDF

/-- `m.transform df`: applying a fitted pipeline model to a dataframe. -/
def ModelExpr.transform : ModelExpr → DFExpr → DFExpr
  | .fit stages fitOn, df => .transformed stages fitOn df

/-- `transformed_train_df = model.transform(train_df)` (cell 22). -/
def transformed_train_df : DFExpr := model.transform .trainDF

/-- `transformed_validation_df = model.transform(validation_df)` (cell 22). -/
def transformed_validation_df : DFExpr := model.transform .validationDF

/-- `RegressionEvaluator(labelCol, predictionCol, metricName)`. -/
structure RegressionEvaluatorDef where
  labelCol : String
  predictionCol : String
  metricName : String
  deriving DecidableEq, Repr

/-- `evaluator = RegressionEvaluator(labelCol="rings", predictionCol="prediction", metricName="rmse")` (cell 24). -/
def evaluator : RegressionEvaluatorDef := ⟨"rings", "prediction", "rmse"⟩

/-- A metric-valued expression: `evaluate ev df` is `ev.evaluate(df)`. -/
inductive MetricExpr where
  | evaluate (ev : RegressionEvaluatorDef) (df : DFExpr)
  deriving DecidableEq, Repr

/-- `train_rmse = evaluator.evaluate(transformed_train_df)` (cell 24). -/
def train_rmse : MetricExpr := .evaluate evaluator transformed_train_df

/-- `validation_rmse = evaluator.evaluate(transformed_validation_df)` (cell 24). -/
def validation_rmse : MetricExpr := .evaluate evaluator transformed_validation_df

/-! ## Serving schema and request payloads (cells 37, 41, 43, 45) -/

/-- A named, typed column of the serving container's JSON schema. -/
structure ColDef where
  name : String
  type : String
  deriving DecidableEq, Repr

/-- The serving container's JSON schema: an ordered `input` column list and
a single `output` column. -/
structure ServingSchema where
  input : List ColDef
  output : ColDef
  deriving DecidableEq, Repr

/-- The `schema` dict of cell 37, passed to the container through the
`SAGEMAKER_SPARKML_SCHEMA` environment variable. -/
def servingSchema : ServingSchema :=
  { input :=
      [ ⟨"sex", "string"⟩,
        ⟨"length", "double"⟩,
        ⟨"diameter", "double"⟩,
        ⟨"height", "double"⟩,
        ⟨"whole_weight", "double"⟩,
        ⟨"shucked_weight", "double"⟩,
        ⟨"viscera_weight", "double"⟩,
        ⟨"shell_weight", "double"⟩ ],
    output := ⟨"prediction", "double"⟩ }

/-- The `env` dict of the `SparkMLModel` constructor (cell 38): the one
environment variable carrying the serving schema. -/
def sparkmlModelEnv : List (String × ServingSchema) :=
  [("SAGEMAKER_SPARKML_SCHEMA", servingSchema)]

/-! ## Request payloads (cells 41, 43, 45) -/

/-- A JSON value in a request's `data` list: a string or a number
(the notebook's payloads use only these). -/
inductive Val where
  | s (v : String)
  | d (v : ℚ)
  deriving DecidableEq, Repr

/-- The `data` list of the second (JSON) request, cell 43:
`{"data": ["F", 0.515, 0.425, 0.14, 0.766, 0.304, 0.1725, 0.255]}`. -/
def jsonRequestData : List Val :=
  [.s "F", .d 0.515, .d 0.425, .d 0.14, .d 0.766, .d 0.304, .d 0.1725, .d 0.255]

/-- The embedded `schema` of the third request, cell 45 (with `length`
first and `sex` second). -/
def embeddedSchema : ServingSchema :=
  { input :=
      [ ⟨"length", "double"⟩,
        ⟨"sex", "string"⟩,
        ⟨"diameter", "double"⟩,
        ⟨"height", "double"⟩,
        ⟨"whole_weight", "double"⟩,
        ⟨"shucked_weight", "double"⟩,
        ⟨"viscera_weight", "double"⟩,
        ⟨"shell_weight", "double"⟩ ],
    output := ⟨"prediction", "double"⟩ }

/-- The `data` list of the third request, cell 45:
`[0.515, "F", 0.425, 0.14, 0.766, 0.304, 0.1725, 0.255]`. -/
def embeddedSchemaRequestData : List Val :=
  [.d 0.515, .s "F", .d 0.425, .d 0.14, .d 0.766, .d 0.304, .d 0.1725, .d 0.255]

/-- Swap the first two entries of a list (the permutation relating the
third request's schema and data to the defaults). -/
def swap01 : List α → List α
  | a :: b :: t => b :: a :: t
  | l => l

/-- Interpret a `data` list under a schema's `input` columns: the
name-to-value record the serving container reads off the request. -/
def record (cols : List ColDef) (data : List Val) : List (String × Val) :=
  (cols.map ColDef.name).zip data

/-! ## Event trace (whole notebook, cells 16-47)

The notebook has no control flow: its effects happen in the fixed order of
its cells.  `notebookTrace ts` lists those effects, parameterized by the
runtime timestamp string used in the model and endpoint names. -/

/-- Serialization format of a prediction request's payload. -/
inductive PayloadFmt where
  | csv
  | json
  | jsonWithSchema
  deriving DecidableEq, Repr

/-- An externally visible effect of the notebook. -/
inductive Event where
  | readCSV (uri : String)
  | randomSplitEv (weights : List ℚ)
  | fitPipeline
  | transformData
  | evaluateModel
  | serializeBundle (path : String)
  | extractZip (zipPath : String) (destDir : String)
  | writeTarGz (path : String)
  | uploadS3 (key : String)
  | createModel (name : String)
  | deploy (endpoint : String)
  | predict (endpoint : String) (fmt : PayloadFmt)
  | deleteEndpoint (endpoint : String)
  deriving DecidableEq, Repr

/-- `endpoint_name = "sparkml-abalone-ep-" + timestamp_prefix` (cell 38). -/
def endpointName (ts : String) : String := "sparkml-abalone-ep-" ++ ts

/-- `model_name = "sparkml-abalone-" + timestamp_prefix` (cell 38). -/
def modelName (ts : String) : String := "sparkml-abalone-" ++ ts

/-- The notebook's effects in cell order: read and split the CSV, fit,
transform, evaluate, serialize the bundle, unzip it, write the tar-gzip
archive, upload it, register the model, deploy the endpoint, issue the
three prediction requests (CSV, JSON, JSON-with-schema) and delete the
endpoint. -/
def notebookTrace (ts : String) : List Event :=
  [ .readCSV "s3://<your-input-bucket>/abalone/abalone.csv",
    .randomSplitEv [0.8, 0.2],
    .fitPipeline,
    .transformData,
    .evaluateModel,
    .serializeBundle "jar:file:/tmp/model.zip",
    .extractZip "/tmp/model.zip" "/tmp/model",
    .writeTarGz "/tmp/model.tar.gz",
    .uploadS3 "emr/abalone/mleap/model.tar.gz",
    .createModel (modelName ts),
    .deploy (endpointName ts),
    .predict (endpointName ts) .csv,
    .predict (endpointName ts) .json,
    .predict (endpointName ts) .jsonWithSchema,
    .deleteEndpoint (endpointName ts) ]

/-- Is the event a prediction request? -/
def Event.isPredict : Event → Bool
  | .predict _ _ => true
  | _ => false

/-- Is the event an operation against the ML platform (model registration,
endpoint deployment, endpoint invocation, endpoint deletion)? -/
def Event.isPlatformOp : Event → Bool
  | .createModel _ => true
  | .deploy _ => true
  | .predict _ _ => true
  | .deleteEndpoint _ => true
  | _ => false

/-- Is the event the endpoint deployment? -/
def Event.isDeploy : Event → Bool
  | .deploy _ => true
  | _ => false

/-- Is the event the endpoint deletion? -/
def Event.isDelete : Event → Bool
  | .deleteEndpoint _ => true
  | _ => false

/-- Is the event the bundle serialization? -/
def Event.isSerialize : Event → Bool
  | .serializeBundle _ => true
  | _ => false

/-- Is the event the tar-gzip repackaging step (unzip or tar write)? -/
def Event.isRepackage : Event → Bool
  | .extractZip _ _ => true
  | .writeTarGz _ => true
  | _ => false

/-- Is the event the S3 upload of the archive? -/
def Event.isUpload : Event → Bool
  | .uploadS3 _ => true
  | _ => false

/-! ## Archives and the local filesystem (cells 28, 30, 32)

Paths are sequences of components (`/tmp/model.zip` is
`["tmp", "model.zip"]`), so that directory containment is list-prefix.  An
archive or a filesystem is a list of `(path, contents)` entries. -/

/-- A file entry: path components paired with opaque contents. -/
abbrev Entry : Type := List String × String

/-- `/tmp/model.zip` as components. -/
def modelZipPath : List String := ["tmp", "model.zip"]

/-- `/tmp/model.tar.gz` as components. -/
def modelTarGzPath : List String := ["tmp", "model.tar.gz"]

/-- `/tmp/model` as components. -/
def modelDirPath : List String := ["tmp", "model"]

/-- `zf.extractall(dest)` (cell 28): each member of the zip archive is
written below `dest` at its member path. -/
def extractall (dest : List String) (zip : List Entry) : List Entry :=
  zip.map (fun e => (dest ++ e.1, e.2))

/-- `tar.add(path, arcname=arc)` (cell 28): the files of the filesystem at
`path` or below it enter the tar archive, their leading `path` replaced by
`arc`, contents unchanged. -/
def tarAdd (fs : List Entry) (path arc : List String) : List Entry :=
  (fs.filter (fun e => path.isPrefixOf e.1)).map
    (fun e => (arc ++ e.1.drop path.length, e.2))

/-- The two `tar.add` calls of cell 28 building `/tmp/model.tar.gz`:
`tar.add("/tmp/model/bundle.json", arcname="bundle.json")` then
`tar.add("/tmp/model/root", arcname="root")`. -/
def makeModelTarGz (fs : List Entry) : List Entry :=
  tarAdd fs (modelDirPath ++ ["bundle.json"]) ["bundle.json"] ++
  tarAdd fs (modelDirPath ++ ["root"]) ["root"]

/-- Cell 28 end to end: extract the zip bundle at `/tmp/model.zip` into
`/tmp/model`, then build the tar-gzip archive from the extracted
`bundle.json` and `root` members. -/
def repackage (zip : List Entry) : List Entry :=
  makeModelTarGz (extractall modelDirPath zip)

/-- The top-level component of an entry's path inside an archive. -/
def topLevel (e : Entry) : Option String := e.1.head?

/-- `os.remove(p)` on the filesystem (cell 32). -/
def removeFile (p : List String) (fs : List Entry) : List Entry :=
  fs.filter (fun e => e.1 ≠ p)

/-- `shutil.rmtree(d)` on the filesystem (cell 32): drops every file at or
below the directory `d`. -/
def rmtree (d : List String) (fs : List Entry) : List Entry :=
  fs.filter (fun e => ¬ d.isPrefixOf e.1)

/-- Local and remote storage visible to the notebook. -/
structure Storage where
  localFS : List Entry
  s3Bucket : List Entry
  deriving DecidableEq, Repr

/-- Cell 32, `os.remove("/tmp/model.zip")`, `os.remove("/tmp/model.tar.gz")`,
`shutil.rmtree("/tmp/model")`: the optional local cleanup; it only touches
the local filesystem. -/
def cleanup (st : Storage) : Storage :=
  { st with
    localFS :=
      rmtree modelDirPath
        (removeFile modelTarGzPath (removeFile modelZipPath st.localFS)) }

/-- The local filesystem after cells 26-30 ran on a filesystem `other`:
the serialized zip bundle at `/tmp/model.zip`, its extraction under
`/tmp/model`, and the tar-gzip archive at `/tmp/model.tar.gz`. -/
def localAfterArtifacts (other : List Entry) (bundle : List Entry) : List Entry :=
  other ++ [(modelZipPath, "zip-bundle")] ++
    extractall modelDirPath bundle ++ [(modelTarGzPath, "tar-gz-archive")]

/-- Storage after cell 30's `upload_file`: the archive has been copied to
the S3 bucket under `emr/abalone/mleap/model.tar.gz`. -/
def storageAfterUpload (other bundle s3other : List Entry) : Storage :=
  { localFS := localAfterArtifacts other bundle,
    s3Bucket := s3other ++ [(["emr", "abalone", "mleap", "model.tar.gz"], "tar-gz-archive")] }

/-! ## Sequencing without exception handling (all code cells)

No cell of the notebook contains `try`/`except`: each step runs only if
every earlier step succeeded, and the first error is the script's outcome,
unchanged.  Steps are `Except` computations composed by plain `bind`. -/

/-- Run steps in order with no handler: `bind` without `catch`. -/
def runSeq (steps : List (Except ε Unit)) : Except ε Unit :=
  steps.foldl (fun acc s => acc.bind (fun _ => s)) (Except.ok ())

/-- The notebook's external calls in cell order, composed exactly as the
script composes them: sequentially, with no `try`/`except` around any call. -/
def notebookRun (csvRead pipelineFit transformStep evalStep serializeStep
    archiveStep uploadStep deployStep predictCsv predictJson predictSchema
    deleteStep : Except ε Unit) : Except ε Unit :=
  runSeq [csvRead, pipelineFit, transformStep, evalStep, serializeStep,
          archiveStep, uploadStep, deployStep, predictCsv, predictJson,
          predictSchema, deleteStep]

/-! ## The dataset split (cell 16) -/

/-- The arguments of the `randomSplit` call. -/
structure RandomSplitCall where
  weights : List ℚ
  seed : Option Nat
  deriving DecidableEq, Repr

/-- `total_df.randomSplit([0.8, 0.2])` (cell 16): fixed weights, no seed. -/
def abaloneSplitCall : RandomSplitCall := ⟨[0.8, 0.2], none⟩

/-- The partition semantics of a two-way `randomSplit`: the engine draws a
random assignment of rows (here the boolean `pick`); the first dataframe
keeps the rows assigned `true`, the second the rest. -/
def randomSplitOn (rows : List α) (pick : α → Bool) : List α × List α :=
  (rows.filter pick, rows.filter (fun r => !pick r))

/-! ## Helper lemmas -/

/-- A singleton list is a prefix exactly when it is the head. -/
lemma singleton_prefix_iff_head (s : String) (l : List String) :
    [s] <+: l ↔ l.head? = some s := by
  cases l with
  | nil => simp
  | cons a t => simp [List.cons_prefix_cons, eq_comm]

/-- Filtering by two mutually exclusive predicates and appending is a
permutation of filtering by their disjunction. -/
lemma filter_disjoint_append_perm (p q : α → Bool) (l : List α)
    (h : ∀ a, p a = true → q a = false) :
    (l.filter p ++ l.filter q).Perm (l.filter (fun a => p a || q a)) := by
  induction l with
  | nil => simp
  | cons a t ih =>
    by_cases hp : p a = true
    · have hq : q a = false := h a hp
      simpa [hp, hq] using ih.cons a
    · have hp' : p a = false := by simpa using hp
      by_cases hq : q a = true
      · simp only [hp', hq, List.filter_cons, Bool.false_or, cond_true, cond_false]
        exact List.perm_middle.trans (ih.cons a)
      · have hq' : q a = false := by simpa using hq
        simpa [hp', hq'] using ih

/-! ## Theorems for the claims -/

/-- C2: the JSON schema configuration passed via `SAGEMAKER_SPARKML_SCHEMA`
has an ordered `input` list of exactly 8 named, typed columns — `sex` of
type string followed by the seven continuous measurements of type double —
and an `output` field naming the single column `prediction` of type double. -/
theorem serving_schema_eight_columns :
    servingSchema.input.length = 8 ∧
    servingSchema.input.map ColDef.name =
      ["sex", "length", "diameter", "height", "whole_weight",
       "shucked_weight", "viscera_weight", "shell_weight"] ∧
    (servingSchema.input.headD ⟨"", ""⟩).type = "string" ∧
    (servingSchema.input.tail.all fun c => c.type == "double") = true ∧
    servingSchema.output = ⟨"prediction", "double"⟩ ∧
    sparkmlModelEnv.lookup "SAGEMAKER_SPARKML_SCHEMA" = some servingSchema :=
  ⟨rfl, rfl, rfl, rfl, rfl, rfl⟩

/-- C3: the pipeline's stages are exactly the StringIndexer
(`sex → indexed_sex`), the OneHotEncoderEstimator (`indexed_sex → sex_vec`),
the VectorAssembler (`sex_vec` plus the seven continuous columns →
`features`) and the RandomForestRegressor (label `rings`, features
`features`, maxDepth 6, numTrees 18), in that order — encoding before
assembly before fitting — and the single fit call trains the whole stage
sequence on `train_df`. -/
theorem pipeline_fixed_stage_order :
    pipeline =
      [ .indexer ⟨"sex", "indexed_sex"⟩,
        .encoder ⟨["indexed_sex"], ["sex_vec"]⟩,
        .assembler ⟨[ "sex_vec", "length", "diameter", "height", "whole_weight",
                      "shucked_weight", "viscera_weight", "shell_weight" ], "features"⟩,
        .regressor ⟨"rings", "features", 6, 18⟩ ] ∧
    pipeline.findIdx (fun s => match s with | .indexer _ => true | _ => false) = 0 ∧
    pipeline.findIdx (fun s => match s with | .encoder _ => true | _ => false) = 1 ∧
    pipeline.findIdx (fun s => match s with | .assembler _ => true | _ => false) = 2 ∧
    pipeline.findIdx (fun s => match s with | .regressor _ => true | _ => false) = 3 ∧
    pipeline.length = 4 ∧
    model = .fit pipeline .trainDF :=
  ⟨rfl, rfl, rfl, rfl, rfl, rfl, rfl⟩

/-- C7: one `RegressionEvaluator` with label column `rings`, prediction
column `prediction` and metric `rmse` computes both RMSE values, applied to
the transformed train and validation dataframes, each of which is produced
by applying the same fitted pipeline model (fit on `train_df`) to
`train_df` and `validation_df` respectively. -/
theorem rmse_evaluation_uses_one_evaluator_and_one_model :
    evaluator = ⟨"rings", "prediction", "rmse"⟩ ∧
    train_rmse = .evaluate evaluator transformed_train_df ∧
    validation_rmse = .evaluate evaluator transformed_validation_df ∧
    transformed_train_df = model.transform .trainDF ∧
    transformed_validation_df = model.transform .validationDF ∧
    model = .fit pipeline .trainDF :=
  ⟨rfl, rfl, rfl, rfl, rfl, rfl⟩

/-- C8: the serving schema's `input` list is exactly the first 8 fields of
the training CSV `StructType` in order with types mapped (`StringType` to
string, `DoubleType` to double); the ninth CSV field is the label `rings`,
which appears neither among the serving inputs nor among the
VectorAssembler's input columns, while it is the regressor's label column. -/
theorem serving_schema_excludes_label :
    servingSchema.input =
      (sparkSchema.take 8).map (fun f => ⟨f.name, dtypeName f.dtype⟩) ∧
    sparkSchema.length = 9 ∧
    (sparkSchema.getD 8 ⟨"", .stringType, true⟩).name = "rings" ∧
    ((servingSchema.input.map ColDef.name).contains "rings") = false ∧
    (assembler.inputCols.contains "rings") = false ∧
    rf.labelCol = "rings" :=
  ⟨rfl, rfl, rfl, rfl, rfl, rfl⟩

/-- C5: the third request's embedded schema is the environment-variable
schema with input columns 0 and 1 (`sex` and `length`) swapped, its data is
the second request's data with entries 0 and 1 swapped, and reading the
third request's data under its embedded schema gives exactly the
name-to-value record of the second request under the default schema. -/
theorem third_request_schema_permutation :
    embeddedSchema.input = swap01 servingSchema.input ∧
    embeddedSchema.output = servingSchema.output ∧
    embeddedSchemaRequestData = swap01 jsonRequestData ∧
    (record embeddedSchema.input embeddedSchemaRequestData).Perm
      (record servingSchema.input jsonRequestData) ∧
    ((record servingSchema.input jsonRequestData).map Prod.fst).Nodup ∧
    ∀ n : String,
      (record embeddedSchema.input embeddedSchemaRequestData).lookup n =
        (record servingSchema.input jsonRequestData).lookup n := by
  refine ⟨rfl, rfl, rfl, List.Perm.swap _ _ _, by decide, ?_⟩
  intro n
  show List.lookup n _ = List.lookup n _
  by_cases h1 : n = "sex"
  · subst h1; rfl
  · by_cases h2 : n = "length"
    · subst h2; rfl
    · have b1 : (n == "sex") = false := beq_eq_false_iff_ne.mpr h1
      have b2 : (n == "length") = false := beq_eq_false_iff_ne.mpr h2
      simp [record, embeddedSchema, servingSchema, embeddedSchemaRequestData,
        jsonRequestData, List.lookup, b1, b2]

/-- C4: the notebook's effects happen in the fixed cell order — the fitted
model is serialized, repackaged and uploaded before the model resource is
registered and the endpoint deployed; no platform operation happens before
the upload finishes; all three prediction requests hit the endpoint named
by the same `endpoint_name` string passed to `deploy`, strictly after the
deployment; and the deletion of that same endpoint is the final operation,
with no prediction after it. -/
theorem straight_line_effect_order (ts : String) :
    (notebookTrace ts).length = 15 ∧
    (notebookTrace ts).findIdx Event.isSerialize = 5 ∧
    (notebookTrace ts).findIdx Event.isRepackage = 6 ∧
    (notebookTrace ts).findIdx Event.isUpload = 8 ∧
    (notebookTrace ts).findIdx Event.isDeploy = 10 ∧
    (notebookTrace ts).findIdx Event.isDelete = 14 ∧
    ((notebookTrace ts).take 9).countP Event.isPlatformOp = 0 ∧
    ((notebookTrace ts).take 11).countP Event.isPredict = 0 ∧
    (notebookTrace ts).countP Event.isPredict = 3 ∧
    ((notebookTrace ts).drop 14).countP Event.isPredict = 0 ∧
    (notebookTrace ts).getD 10 .fitPipeline = .deploy (endpointName ts) ∧
    (notebookTrace ts).getD 11 .fitPipeline = .predict (endpointName ts) .csv ∧
    (notebookTrace ts).getD 12 .fitPipeline = .predict (endpointName ts) .json ∧
    (notebookTrace ts).getD 13 .fitPipeline = .predict (endpointName ts) .jsonWithSchema ∧
    (notebookTrace ts).getD 14 .fitPipeline = .deleteEndpoint (endpointName ts) :=
  ⟨rfl, rfl, rfl, rfl, rfl, rfl, rfl, rfl, rfl, rfl, rfl, rfl, rfl, rfl, rfl⟩

/-- Folding the bind chain from an error leaves the error unchanged. -/
lemma foldl_bind_error (l : List (Except ε Unit)) (e : ε) :
    l.foldl (fun acc s => acc.bind fun _ => s) (Except.error e) = Except.error e := by
  induction l with
  | nil => rfl
  | cons a t ih =>
    simp only [List.foldl_cons]
    exact ih

/-- If every step before the first error succeeds, the sequential run
returns that error. -/
lemma runSeq_error_of_prefix_ok (pre post : List (Except ε Unit)) (e : ε)
    (hok : ∀ x ∈ pre, x = Except.ok ()) :
    runSeq (pre ++ Except.error e :: post) = Except.error e := by
  induction pre with
  | nil =>
    show List.foldl _ _ _ = _
    simp only [List.nil_append, List.foldl_cons]
    exact foldl_bind_error post e
  | cons a t ih =>
    have ha : a = Except.ok () := hok a (List.mem_cons_self a t)
    subst ha
    show List.foldl _ _ _ = _
    simp only [List.cons_append, List.foldl_cons]
    exact ih fun x hx => hok x (List.mem_cons_of_mem _ hx)

/-- C6: the notebook wraps no call in exception handling: with the steps
composed exactly as the script composes them (sequential bind, no handler),
if every step before some failing step succeeds, the script's outcome is
that step's error, unchanged — no retry, no recovery, no translation, and
no later step runs. -/
theorem first_error_propagates_unchanged {ε : Type}
    (csvRead pipelineFit transformStep evalStep serializeStep archiveStep
      uploadStep deployStep predictCsv predictJson predictSchema
      deleteStep : Except ε Unit)
    (pre post : List (Except ε Unit)) (e : ε)
    (hsplit : [csvRead, pipelineFit, transformStep, evalStep, serializeStep,
               archiveStep, uploadStep, deployStep, predictCsv, predictJson,
               predictSchema, deleteStep] = pre ++ Except.error e :: post)
    (hok : ∀ x ∈ pre, x = Except.ok ()) :
    notebookRun csvRead pipelineFit transformStep evalStep serializeStep
      archiveStep uploadStep deployStep predictCsv predictJson predictSchema
      deleteStep = Except.error e := by
  unfold notebookRun
  rw [hsplit]
  exact runSeq_error_of_prefix_ok pre post e hok

/-- Witness for C6: a classpath misconfiguration error raised by the
serialization step (step 5) is the run's outcome, unchanged. -/
theorem first_error_propagates_unchanged_witness :
    notebookRun (ε := String) (.ok ()) (.ok ()) (.ok ()) (.ok ())
      (.error "JavaPackage is not callable") (.ok ()) (.ok ()) (.ok ())
      (.ok ()) (.ok ()) (.ok ()) (.ok ()) =
      Except.error "JavaPackage is not callable" :=
  first_error_propagates_unchanged _ _ _ _ _ _ _ _ _ _ _ _
    [.ok (), .ok (), .ok (), .ok ()]
    [.ok (), .ok (), .ok (), .ok (), .ok (), .ok (), .ok ()]
    "JavaPackage is not callable" rfl
    (by intro x hx; fin_cases hx <;> rfl)

/-- C10: the `randomSplit` call uses fixed weights `[0.8, 0.2]` and no
seed (so the partition may differ between executions); under the engine's
split semantics every row of the input lands in exactly one of the two
outputs; and the pipeline is fit on `train_df` only. -/
theorem random_split_partition_fixed_weights :
    abaloneSplitCall = ⟨[0.8, 0.2], none⟩ ∧
    abaloneSplitCall.weights.sum = 1 ∧
    model = .fit pipeline .trainDF ∧
    (∀ {α : Type} (rows : List α) (pick : α → Bool),
      (randomSplitOn rows pick).1.length + (randomSplitOn rows pick).2.length
          = rows.length ∧
      (∀ r ∈ (randomSplitOn rows pick).1, r ∈ rows) ∧
      (∀ r ∈ (randomSplitOn rows pick).2, r ∈ rows) ∧
      ∀ r ∈ rows,
        (r ∈ (randomSplitOn rows pick).1 ↔ pick r = true) ∧
        (r ∈ (randomSplitOn rows pick).2 ↔ pick r = false)) ∧
    (∃ pick₁ pick₂ : Nat → Bool,
      randomSplitOn [0, 1] pick₁ ≠ randomSplitOn [0, 1] pick₂) := by
  refine ⟨rfl, by norm_num [abaloneSplitCall], rfl, ?_, ?_⟩
  · intro α rows pick
    refine ⟨?_, ?_, ?_, ?_⟩
    · have h := (List.filter_append_perm pick rows).length_eq
      simpa [randomSplitOn] using h
    · intro r hr
      exact (List.mem_filter.mp hr).1
    · intro r hr
      exact (List.mem_filter.mp hr).1
    · intro r hr
      constructor
      · simp [randomSplitOn, List.mem_filter, hr]
      · simp [randomSplitOn, List.mem_filter, hr, Bool.not_eq_true']
  · exact ⟨fun _ => true, fun _ => false, by decide⟩

/-- C9: on a filesystem whose pre-existing files are none of the three
model artifacts, the optional cleanup cell removes exactly
`/tmp/model.zip`, `/tmp/model.tar.gz` and the `/tmp/model` tree and
nothing else: the local filesystem is back to its pre-existing files, the
uploaded S3 copy is untouched, and no local model artifact remains. -/
theorem cleanup_removes_exactly_local_artifacts
    (other bundle s3other : List Entry)
    (hother : ∀ x ∈ other, x.1 ≠ modelZipPath ∧ x.1 ≠ modelTarGzPath ∧
      ¬ modelDirPath.isPrefixOf x.1) :
    cleanup (storageAfterUpload other bundle s3other) =
      { localFS := other,
        s3Bucket := s3other ++
          [(["emr", "abalone", "mleap", "model.tar.gz"], "tar-gz-archive")] } ∧
    (cleanup (storageAfterUpload other bundle s3other)).localFS.filter
      (fun e => e.1 = modelZipPath ∨ e.1 = modelTarGzPath ∨
        modelDirPath.isPrefixOf e.1) = [] := by
  have hextzip : ∀ a ∈ extractall modelDirPath bundle, a.1 ≠ modelZipPath := by
    intro a ha
    obtain ⟨b, hb, rfl⟩ : ∃ b ∈ bundle, (modelDirPath ++ b.1, b.2) = a := by
      simpa [extractall] using ha
    simp [modelDirPath, modelZipPath]
  have hexttar : ∀ a ∈ extractall modelDirPath bundle, a.1 ≠ modelTarGzPath := by
    intro a ha
    obtain ⟨b, hb, rfl⟩ : ∃ b ∈ bundle, (modelDirPath ++ b.1, b.2) = a := by
      simpa [extractall] using ha
    simp [modelDirPath, modelTarGzPath]
  have hextdir : ∀ a ∈ extractall modelDirPath bundle,
      modelDirPath.isPrefixOf a.1 = true := by
    intro a ha
    obtain ⟨b, hb, rfl⟩ : ∃ b ∈ bundle, (modelDirPath ++ b.1, b.2) = a := by
      simpa [extractall] using ha
    simp [List.isPrefixOf_iff_prefix]
  have h1 : removeFile modelZipPath (localAfterArtifacts other bundle)
      = (other ++ extractall modelDirPath bundle)
        ++ [(modelTarGzPath, "tar-gz-archive")] := by
    have fo : (other.filter fun e => e.1 ≠ modelZipPath) = other :=
      List.filter_eq_self.mpr fun a ha => by simpa using (hother a ha).1
    have fe : ((extractall modelDirPath bundle).filter
        fun e => e.1 ≠ modelZipPath) = extractall modelDirPath bundle :=
      List.filter_eq_self.mpr fun a ha => by simpa using hextzip a ha
    have fz : (([(modelZipPath, "zip-bundle")] : List Entry).filter
        fun e => e.1 ≠ modelZipPath) = [] := by decide
    have ft : (([(modelTarGzPath, "tar-gz-archive")] : List Entry).filter
        fun e => e.1 ≠ modelZipPath) = [(modelTarGzPath, "tar-gz-archive")] := by
      decide
    show List.filter _ _ = _
    simp only [localAfterArtifacts, List.filter_append, fo, fe, fz, ft,
      List.append_nil]
  have h2 : removeFile modelTarGzPath
      ((other ++ extractall modelDirPath bundle)
        ++ [(modelTarGzPath, "tar-gz-archive")])
      = other ++ extractall modelDirPath bundle := by
    have fo : (other.filter fun e => e.1 ≠ modelTarGzPath) = other :=
      List.filter_eq_self.mpr fun a ha => by simpa using (hother a ha).2.1
    have fe : ((extractall modelDirPath bundle).filter
        fun e => e.1 ≠ modelTarGzPath) = extractall modelDirPath bundle :=
      List.filter_eq_self.mpr fun a ha => by simpa using hexttar a ha
    have ft : (([(modelTarGzPath, "tar-gz-archive")] : List Entry).filter
        fun e => e.1 ≠ modelTarGzPath) = [] := by decide
    show List.filter _ _ = _
    simp only [List.filter_append, fo, fe, ft, List.append_nil]
  have h3 : rmtree modelDirPath (other ++ extractall modelDirPath bundle)
      = other := by
    have fo : (other.filter fun e => ¬ modelDirPath.isPrefixOf e.1) = other :=
      List.filter_eq_self.mpr fun a ha => by simpa using (hother a ha).2.2
    have fe : ((extractall modelDirPath bundle).filter
        fun e => ¬ modelDirPath.isPrefixOf e.1) = [] :=
      List.filter_eq_nil_iff.mpr fun a ha => by simpa using hextdir a ha
    show List.filter _ _ = _
    simp only [List.filter_append, fo, fe, List.append_nil]
  have hmain : cleanup (storageAfterUpload other bundle s3other) =
      { localFS := other,
        s3Bucket := s3other ++
          [(["emr", "abalone", "mleap", "model.tar.gz"], "tar-gz-archive")] } := by
    show Storage.mk _ _ = _
    rw [show (storageAfterUpload other bundle s3other).localFS
        = localAfterArtifacts other bundle from rfl, h1, h2, h3]
    rfl
  refine ⟨hmain, ?_⟩
  rw [hmain]
  exact List.filter_eq_nil_iff.mpr fun a ha => by
    have h := hother a ha
    simp [h.1, h.2.1, h.2.2]

/-- Witness for C9: cleaning up after a run whose only pre-existing local
file is `/home/data.csv` leaves exactly that file and the uploaded copy. -/
theorem cleanup_removes_exactly_local_artifacts_witness :
    (∀ x ∈ ([(["home", "data.csv"], "d")] : List Entry),
      x.1 ≠ modelZipPath ∧ x.1 ≠ modelTarGzPath ∧
        ¬ modelDirPath.isPrefixOf x.1) ∧
    cleanup (storageAfterUpload [(["home", "data.csv"], "d")]
        [(["bundle.json"], "b"), (["root", "model.json"], "r")] []) =
      { localFS := [(["home", "data.csv"], "d")],
        s3Bucket := [] ++
          [(["emr", "abalone", "mleap", "model.tar.gz"], "tar-gz-archive")] } :=
  ⟨by decide,
    (cleanup_removes_exactly_local_artifacts [(["home", "data.csv"], "d")]
      [(["bundle.json"], "b"), (["root", "model.json"], "r")] []
      (by decide)).1⟩

/-- Adding to the tar archive, with a one-component arcname, the extraction
of a zip bundle restricted below that component recovers exactly the zip
members whose top-level component it is, names and contents unchanged. -/
lemma tarAdd_extractall_singleton (sub : String) (zip : List Entry) :
    tarAdd (extractall modelDirPath zip) (modelDirPath ++ [sub]) [sub]
      = zip.filter (fun e => e.1.head? == some sub) := by
  unfold tarAdd extractall
  rw [List.filter_map, List.map_map]
  rw [List.filter_congr (q := fun e : Entry => e.1.head? == some sub)
    (fun a _ => by
      show (modelDirPath ++ [sub]).isPrefixOf (modelDirPath ++ a.1) = _
      rw [Bool.eq_iff_iff]
      simp [List.isPrefixOf_iff_prefix, singleton_prefix_iff_head])]
  have hid : ∀ a ∈ zip.filter (fun e : Entry => e.1.head? == some sub),
      (((fun e : Entry => ([sub] ++ e.1.drop (modelDirPath ++ [sub]).length, e.2)) ∘
        (fun e : Entry => (modelDirPath ++ e.1, e.2))) a) = id a := by
    intro a ha
    have hh : a.1.head? = some sub := by
      have := (List.mem_filter.mp ha).2
      simpa using this
    obtain ⟨t, ht⟩ : ∃ t, a.1 = sub :: t := by
      cases hA : a.1 with
      | nil => rw [hA] at hh; simp at hh
      | cons x xs =>
        rw [hA] at hh
        simp only [List.head?_cons, Option.some.injEq] at hh
        exact ⟨xs, by rw [hh]⟩
    show ([sub] ++ (modelDirPath ++ a.1).drop (modelDirPath ++ [sub]).length, a.2)
        = a
    have hlen : (modelDirPath ++ [sub]).length = modelDirPath.length + 1 := by
      simp
    rw [ht, hlen, List.drop_append 1]
    show (sub :: t, a.2) = a
    rw [← ht]
  rw [List.map_congr_left hid, List.map_id]

/-- C1: repackaging extracts the zip bundle into `/tmp/model` and writes a
tar-gzip archive whose entries are, up to order, exactly the bundle's
members with top-level name `bundle.json` or `root`, names and contents
unchanged; in particular the given `bundle.json` manifest and `root`
members are in the archive. -/
theorem repackage_keeps_exactly_bundle_and_root (zip : List Entry)
    (mb mr : Entry)
    (hmb : mb ∈ zip) (hmbTop : topLevel mb = some "bundle.json")
    (hmr : mr ∈ zip) (hmrTop : topLevel mr = some "root") :
    (repackage zip).Perm
      (zip.filter fun e =>
        topLevel e == some "bundle.json" || topLevel e == some "root") ∧
    mb ∈ repackage zip ∧ mr ∈ repackage zip := by
  have hperm : (repackage zip).Perm
      (zip.filter fun e =>
        topLevel e == some "bundle.json" || topLevel e == some "root") := by
    unfold repackage makeModelTarGz
    rw [tarAdd_extractall_singleton "bundle.json" zip,
      tarAdd_extractall_singleton "root" zip]
    exact filter_disjoint_append_perm _ _ zip fun a hpa => by
      have : a.1.head? = some "bundle.json" := by simpa using hpa
      simp [this]
  refine ⟨hperm, ?_, ?_⟩
  · exact hperm.mem_iff.mpr
      (List.mem_filter.mpr ⟨hmb, by
        have : mb.1.head? = some "bundle.json" := hmbTop
        simp [topLevel, this]⟩)
  · exact hperm.mem_iff.mpr
      (List.mem_filter.mpr ⟨hmr, by
        have : mr.1.head? = some "root" := hmrTop
        simp [topLevel, this]⟩)

/-- Witness for C1: a three-member bundle (manifest, a model file under
`root`, and a stray member) repackages to exactly the manifest and the
`root` file; the stray member is dropped. -/
theorem repackage_keeps_exactly_bundle_and_root_witness :
    ((["bundle.json"], "manifest") ∈
        ([(["bundle.json"], "manifest"), (["root", "model.json"], "m"),
          (["stray"], "x")] : List Entry)) ∧
    ((repackage [(["bundle.json"], "manifest"), (["root", "model.json"], "m"),
        (["stray"], "x")]).Perm
      (([(["bundle.json"], "manifest"), (["root", "model.json"], "m"),
        (["stray"], "x")] : List Entry).filter fun e =>
          topLevel e == some "bundle.json" || topLevel e == some "root") ∧
      (["bundle.json"], "manifest") ∈
        repackage [(["bundle.json"], "manifest"), (["root", "model.json"], "m"),
          (["stray"], "x")] ∧
      (["root", "model.json"], "m") ∈
        repackage [(["bundle.json"], "manifest"), (["root", "model.json"], "m"),
          (["stray"], "x")]) :=
  ⟨by decide,
    repackage_keeps_exactly_bundle_and_root
      [(["bundle.json"], "manifest"), (["root", "model.json"], "m"),
        (["stray"], "x")]
      (["bundle.json"], "manifest") (["root", "model.json"], "m")
      (by decide) rfl (by decide) rfl⟩

end SparkmlAbalone
